import Mathlib

/-!
Shallow embedding of the startup (bootstrap) behaviour of the men-starter-kit
repository: src/server.js, src/create.js, and the two unnamed module variants
src/unnamed/part_000 and src/unnamed/part_001.

Each variant is embedded as a function from the value of the MONGO_URI
environment variable (an `Option String`, `none` when the variable is absent)
and the outcome of the single data-store connection attempt (a `Bool`, `true`
when the external store accepts the connection) to the ordered list of
observable events of that process run.  Termination is modelled by the
`process.exit` calls present in the code; where a variant contains no such
call on a path, the run simply continues (any termination there would come
from the runtime, not from this code).
-/

namespace MenStarter

/-- Truthiness test performed by the guards written `if (!mongoURI)` in the
source: the environment value is falsy when the variable is absent
(`undefined`) or set to the empty string. -/
def uriFalsy : Option String → Bool
  | none => true
  | some s => s == ""

/-- Observable events of one process run, listed in program order. -/
inductive Event : Type where
  | logMissingUri : Event
  | exitProc : Nat → Event
  | connectStart : Option String → Event
  | logConnected : Event
  | logConnError : Event
  | listen : Nat → Event
  | docWork : Event
  deriving DecidableEq, Repr

/-- Embeds src/server.js.  There is no guard on MONGO_URI; `mongoose.connect`
is invoked fire-and-forget at module scope, the connection event handlers and
the root route are registered, and `app.listen(3000)` runs unconditionally in
the same synchronous pass.  Only afterwards does the pending connection
resolve, firing the `connected` or `error` event handler, each of which only
logs: the file contains no `process.exit` on either path. -/
def serverJsRun (uri : Option String) (ok : Bool) : List Event :=
  Event.connectStart uri ::
  Event.listen 3000 ::
  (if ok then [Event.logConnected] else [Event.logConnError])

/-- Embeds the first module of src/unnamed/part_000.  The `if (!mongoURI)`
guard logs the missing-key message and exits with code 1 before any connection
attempt.  Otherwise `main()` starts the connection and suspends at `await`;
the route, the error middleware and `app.listen(3000)` then run
unconditionally, and the later resolution fires the success log or the
trailing `main().catch` handler, which only logs — there is no `process.exit`
on the connection-failure path. -/
def part000Run (uri : Option String) (ok : Bool) : List Event :=
  if uriFalsy uri then
    [Event.logMissingUri, Event.exitProc 1]
  else
    Event.connectStart uri ::
    Event.listen 3000 ::
    (if ok then [Event.logConnected] else [Event.logConnError])

/-- Embeds src/unnamed/part_001.  The guard logs and exits with code 1 when
MONGO_URI is falsy; otherwise `main()` awaits `mongoose.connect`.  On success
it logs the connected message; on failure the `catch` block logs the error and
calls `process.exit(1)`.  This module has no serving component. -/
def part001Run (uri : Option String) (ok : Bool) : List Event :=
  if uriFalsy uri then
    [Event.logMissingUri, Event.exitProc 1]
  else
    Event.connectStart uri ::
    (if ok then [Event.logConnected] else [Event.logConnError, Event.exitProc 1])

/-- Embeds src/create.js.  There is no guard on MONGO_URI, so `main()` always
reaches `mongoose.connect(mongoURI, ...)` — with the raw undefined value when
the variable is absent.  On success it logs the connected message and proceeds
to the Employee document demo (schema, model, `getIntroduction`, `save`),
abstracted here as the single `docWork` event; on failure the `catch` block
logs the error and calls `process.exit(1)` (the trailing `main().catch` is
then unreachable). -/
def createJsRun (uri : Option String) (ok : Bool) : List Event :=
  Event.connectStart uri ::
  (if ok then [Event.logConnected, Event.docWork]
   else [Event.logConnError, Event.exitProc 1])

/-- Number of `mongoose.connect` invocations in a run. -/
def countConnect (l : List Event) : Nat :=
  l.countP fun e => match e with
    | Event.connectStart _ => true
    | _ => false

/-- The URI values passed to `mongoose.connect`, in order. -/
def connectArgs (l : List Event) : List (Option String) :=
  l.filterMap fun e => match e with
    | Event.connectStart u => some u
    | _ => none

/-- Number of `app.listen` invocations in a run. -/
def countListen (l : List Event) : Nat :=
  l.countP fun e => match e with
    | Event.listen _ => true
    | _ => false

/-- The ports passed to `app.listen`, in order. -/
def listenPorts (l : List Event) : List Nat :=
  l.filterMap fun e => match e with
    | Event.listen p => some p
    | _ => none

/-- Number of times the post-success hook (the connected log) fires in a run. -/
def countReadyLog (l : List Event) : Nat :=
  l.countP fun e => match e with
    | Event.logConnected => true
    | _ => false

/-- Exit status of a run: the code of the first `process.exit` call, `none`
when the run never calls `process.exit`. -/
def exitCode (l : List Event) : Option Nat :=
  (l.filterMap fun e => match e with
    | Event.exitProc c => some c
    | _ => none).head?

/-- Strict ordering of two events within a run. -/
def occursBefore (a b : Event) (l : List Event) : Prop :=
  ∃ l₁ l₂ l₃, l = l₁ ++ a :: l₂ ++ b :: l₃

/-- Readiness states of the bootstrap sequence. -/
inductive Readiness : Type where
  | notStarted
  | connecting
  | ready
  | failed
  deriving DecidableEq, Repr

/-- Readiness trajectory of a src/unnamed/part_001 run, read off its control
flow: a guard failure never reaches `connecting`; once the connection attempt
is reached the run ends `ready` on success and `failed` on failure. -/
def part001States (uri : Option String) (ok : Bool) : List Readiness :=
  if uriFalsy uri then
    [Readiness.notStarted, Readiness.failed]
  else if ok then
    [Readiness.notStarted, Readiness.connecting, Readiness.ready]
  else
    [Readiness.notStarted, Readiness.connecting, Readiness.failed]

/-- Modelled from the spec: the transition relation of the Readiness state
machine, `NotStarted → Connecting → Ready`, with any failure jumping to the
terminal `Failed` state and no transition out of `Failed`. -/
def specStep : Readiness → Readiness → Bool
  | Readiness.notStarted, Readiness.connecting => true
  | Readiness.connecting, Readiness.ready => true
  | Readiness.notStarted, Readiness.failed => true
  | Readiness.connecting, Readiness.failed => true
  | Readiness.ready, Readiness.failed => true
  | _, _ => false

/-- Adjacent pairs of a list: the transitions taken along a trajectory. -/
def adjPairs : List Readiness → List (Readiness × Readiness)
  | a :: b :: rest => (a, b) :: adjPairs (b :: rest)
  | _ => []

/-- An established live link to the external data store, as resolved by
`await mongoose.connect`. -/
structure ConnHandle where
  uri : String
  deriving DecidableEq, Repr

/-- Connection handle produced by a src/unnamed/part_001 run: `await
mongoose.connect(mongoURI, ...)` resolves with a live connection exactly when
the guard passed and the attempt succeeded. -/
def part001Handle (uri : Option String) (ok : Bool) : Option ConnHandle :=
  if uriFalsy uri then none
  else
    match uri, ok with
    | some s, true => some ⟨s⟩
    | _, _ => none

/-- An HTTP response as produced by the Express response object. -/
structure HttpResponse where
  status : Nat
  body : String
  deriving DecidableEq, Repr

/-- Embeds the root route handler of src/server.js and src/unnamed/part_000:
`res.send` with a string body replies with status 200.  The handler closes
over no database state; it is modelled as a function of the ambient readiness
state that ignores it, mirroring the source. -/
def rootHandler (_dbState : Readiness) : HttpResponse :=
  ⟨200, "Hello, world!"⟩

/-- The port constant of src/server.js and src/unnamed/part_000, declared as
the literal `const port = 3000` with no environment read. -/
def serverJsPort : Nat := 3000

/-- An error object passed to the Express error-handling middleware. -/
structure ErrObj where
  stack : String

/-- Outcome of running the error-handling middleware on one error. -/
structure MiddlewareResult where
  loggedStack : String
  response : HttpResponse
  exited : Option Nat
  deriving Repr

/-- Embeds the error-handling middleware of src/unnamed/part_000: it logs
`err.stack` and replies `res.status(500).send` with the fixed body; it calls
no `process.exit`. -/
def errorMiddleware (err : ErrObj) : MiddlewareResult :=
  ⟨err.stack, ⟨500, "Something broke!"⟩, none⟩

/-- C1 counterexample: in the src/unnamed/part_000 run with MONGO_URI set to
"mongodb://db" and a failing connection attempt, the failure is logged but the
process never terminates (no `process.exit` on that path) and `app.listen(3000)`
is still invoked — contradicting the claim that every run with a failed
connection attempt ends with a non-zero exit and never starts serving. -/
theorem c1_counterexample :
    exitCode (part000Run (some "mongodb://db") false) = none ∧
    Event.listen 3000 ∈ part000Run (some "mongodb://db") false ∧
    Event.logConnError ∈ part000Run (some "mongodb://db") false := by
  decide

/-- C1 (amended): in the variants that themselves handle the connection
failure (src/create.js and src/unnamed/part_001), every run whose connection
attempt fails logs the cause and terminates with exit code 1, the ready hook
never fires, no server ever listens, and in part_001 the final readiness state
is `failed`. -/
theorem c1_fail_fast (uri : Option String) (h : uriFalsy uri = false) :
    exitCode (part001Run uri false) = some 1 ∧
    Event.logConnError ∈ part001Run uri false ∧
    countReadyLog (part001Run uri false) = 0 ∧
    countListen (part001Run uri false) = 0 ∧
    (part001States uri false).getLast? = some Readiness.failed ∧
    exitCode (createJsRun uri false) = some 1 ∧
    Event.logConnError ∈ createJsRun uri false ∧
    countReadyLog (createJsRun uri false) = 0 ∧
    countListen (createJsRun uri false) = 0 := by
  simp [part001Run, createJsRun, part001States, exitCode, countReadyLog,
    countListen, h]

/-- C1 witness: the amended fail-fast property evaluated at a concrete
reachable URI. -/
theorem c1_fail_fast_witness :
    exitCode (part001Run (some "mongodb://db") false) = some 1 :=
  (c1_fail_fast (some "mongodb://db") (by decide)).1

/-- C2 counterexample: in src/create.js with MONGO_URI absent, no missing-key
error is reported and `mongoose.connect` IS invoked, with the undefined value
as its argument — contradicting the claim that `connect` is never invoked with
an absent/empty connection string. -/
theorem c2_counterexample :
    Event.connectStart none ∈ createJsRun none false ∧
    Event.logMissingUri ∉ createJsRun none false ∧
    connectArgs (createJsRun none false) = [none] ∧
    exitCode (createJsRun none false) = some 1 := by
  decide

/-- C2 (amended): in the guarded variants (src/unnamed/part_000 and
src/unnamed/part_001), every run with an absent or empty MONGO_URI logs the
missing-key error and exits with code 1, and `mongoose.connect` is never
invoked. -/
theorem c2_guarded (uri : Option String) (ok : Bool) (h : uriFalsy uri = true) :
    part000Run uri ok = [Event.logMissingUri, Event.exitProc 1] ∧
    part001Run uri ok = [Event.logMissingUri, Event.exitProc 1] ∧
    countConnect (part000Run uri ok) = 0 ∧
    countConnect (part001Run uri ok) = 0 ∧
    exitCode (part000Run uri ok) = some 1 ∧
    exitCode (part001Run uri ok) = some 1 := by
  simp [part000Run, part001Run, countConnect, exitCode, h]

/-- C2 witness: the amended guarded property evaluated with the variable
absent. -/
theorem c2_guarded_witness :
    countConnect (part001Run none true) = 0 :=
  (c2_guarded none true (by decide)).2.2.2.1

/-- C3 counterexample: in src/server.js with a failing connection attempt,
`app.listen(3000)` is still invoked, and it is invoked before the connection
outcome is even known — contradicting the claim that the serving component
begins accepting requests only after `connect` has succeeded and never when it
fails. -/
theorem c3_counterexample :
    Event.listen 3000 ∈ serverJsRun (some "mongodb://db") false ∧
    occursBefore (Event.listen 3000) Event.logConnError
      (serverJsRun (some "mongodb://db") false) ∧
    Event.listen 3000 ∈ part000Run (some "mongodb://db") false := by
  refine ⟨by decide, ⟨[Event.connectStart (some "mongodb://db")], [], [], ?_⟩,
    by decide⟩
  decide

/-- C3 (amended): `app.listen` is invoked exactly once per run — always in
src/server.js, and exactly when the configuration guard passes in
src/unnamed/part_000 — unconditionally of the connection outcome, and before
that outcome is known: in a failing src/server.js run the listen precedes the
error log. -/
theorem c3_listen_unconditional (uri : Option String) (ok : Bool) :
    countListen (serverJsRun uri ok) = 1 ∧
    countListen (part000Run uri ok) = (if uriFalsy uri then 0 else 1) ∧
    occursBefore (Event.listen 3000) Event.logConnError
      (serverJsRun uri false) := by
  refine ⟨?_, ?_, [Event.connectStart uri], [], [], rfl⟩
  · cases ok <;> rfl
  · by_cases h : uriFalsy uri = true <;>
      cases ok <;> simp [part000Run, countListen, h]

/-- C4 counterexample: in src/unnamed/part_000 with MONGO_URI present and a
failing connection attempt, the server is nevertheless listening and the root
route still answers every client — contradicting the claim that a connection
error leaves no listening server and no response to any client. -/
theorem c4_counterexample :
    Event.listen 3000 ∈ part000Run (some "mongodb://db") false ∧
    exitCode (part000Run (some "mongodb://db") false) = none ∧
    rootHandler Readiness.failed = ⟨200, "Hello, world!"⟩ := by
  refine ⟨by decide, by decide, rfl⟩

/-- C4 (amended): a configuration error is total — in the guarded variants
(src/unnamed/part_000 and src/unnamed/part_001) an absent or empty MONGO_URI
makes the run exit with code 1 before any `app.listen`, so no listening server
exists and no client is ever answered.  A connection error, by contrast, is
total only in the variants without a serving component. -/
theorem c4_config_total (uri : Option String) (ok : Bool)
    (h : uriFalsy uri = true) :
    countListen (part000Run uri ok) = 0 ∧
    exitCode (part000Run uri ok) = some 1 ∧
    countListen (part001Run uri ok) = 0 ∧
    exitCode (part001Run uri ok) = some 1 := by
  simp [part000Run, part001Run, countListen, exitCode, h]

/-- C4 witness: the amended totality property evaluated with the variable set
to the empty string. -/
theorem c4_config_total_witness :
    countListen (part000Run (some "") true) = 0 :=
  (c4_config_total (some "") true (by decide)).1

/-- C5: every src/unnamed/part_001 run with a present, non-empty MONGO_URI and
a successful connection attempt ends in readiness `ready`, fires the
post-success hook (the connected log) exactly once, produces a non-null
connection handle, and does not exit. -/
theorem c5_success (uri : Option String) (h : uriFalsy uri = false) :
    (part001States uri true).getLast? = some Readiness.ready ∧
    countReadyLog (part001Run uri true) = 1 ∧
    part001Handle uri true ≠ none ∧
    exitCode (part001Run uri true) = none := by
  cases uri with
  | none => simp [uriFalsy] at h
  | some s =>
    refine ⟨?_, ?_, ?_, ?_⟩ <;>
      simp [part001States, part001Run, part001Handle, countReadyLog,
        exitCode, h]

/-- C5 witness: the success property evaluated at a concrete reachable URI. -/
theorem c5_success_witness :
    countReadyLog (part001Run (some "mongodb://db") true) = 1 :=
  (c5_success (some "mongodb://db") (by decide)).2.1

/-- C6: every run of every variant invokes `mongoose.connect` at most once —
exactly once whenever the call site is reached (always in src/server.js and
src/create.js) — there is no retry on failure, and in the cited variants
(src/create.js and src/unnamed/part_001) a run whose connection attempt fails
ends with `process.exit(1)`. -/
theorem c6_single_attempt (uri : Option String) (ok : Bool) :
    countConnect (serverJsRun uri ok) = 1 ∧
    countConnect (createJsRun uri ok) = 1 ∧
    countConnect (part000Run uri ok) ≤ 1 ∧
    countConnect (part001Run uri ok) ≤ 1 ∧
    exitCode (createJsRun uri false) = some 1 ∧
    exitCode (part001Run uri false) = some 1 := by
  by_cases h : uriFalsy uri = true <;>
    cases ok <;>
      simp [serverJsRun, createJsRun, part000Run, part001Run, countConnect,
        exitCode, h]

/-- C7: every readiness trajectory of src/unnamed/part_001 takes only
transitions allowed by the forward state machine, never has `failed` as the
source of a transition (so `failed` is terminal), and never takes a
`ready → connecting` retry edge. -/
theorem c7_forward_only (uri : Option String) (ok : Bool) :
    (adjPairs (part001States uri ok)).all
      (fun p => specStep p.1 p.2 && !(p.1 == Readiness.failed) &&
        !(p.1 == Readiness.ready && p.2 == Readiness.connecting)) = true := by
  by_cases h : uriFalsy uri = true <;>
    cases ok <;> simp [part001States, adjPairs, specStep, h]

/-- C8: the root route of src/server.js and src/unnamed/part_000 answers every
GET request to the root URL with status 200 and the fixed body, whatever the
readiness of the data-store connection; and in src/server.js the server is
listening in every run, whatever the connection outcome. -/
theorem c8_root_route (s t : Readiness) (uri : Option String) (ok : Bool) :
    rootHandler s = rootHandler t ∧
    (rootHandler s).body = "Hello, world!" ∧
    (rootHandler s).status = 200 ∧
    Event.listen 3000 ∈ serverJsRun uri ok := by
  refine ⟨rfl, rfl, rfl, ?_⟩
  cases ok <;> simp [serverJsRun]

/-- C9: the listening port is the literal constant 3000: every src/server.js
run listens exactly on port 3000, every guard-passing src/unnamed/part_000 run
likewise, and the ports of a run are unchanged under any change of the
environment value or of the connection outcome. -/
theorem c9_port_constant (uri₁ uri₂ : Option String) (ok₁ ok₂ : Bool) :
    serverJsPort = 3000 ∧
    listenPorts (serverJsRun uri₁ ok₁) = [3000] ∧
    listenPorts (serverJsRun uri₁ ok₁) = listenPorts (serverJsRun uri₂ ok₂) ∧
    listenPorts (part000Run uri₁ ok₁) =
      (if uriFalsy uri₁ then [] else [3000]) := by
  refine ⟨rfl, ?_, ?_, ?_⟩
  · cases ok₁ <;> rfl
  · cases ok₁ <;> cases ok₂ <;> rfl
  · by_cases h : uriFalsy uri₁ = true <;>
      cases ok₁ <;> simp [part000Run, listenPorts, h]

/-- C10: for every error object handed to the src/unnamed/part_000
error-handling middleware, the middleware logs exactly the error stack,
responds with status 500 and the fixed body, and does not terminate the
process. -/
theorem c10_error_middleware (err : ErrObj) :
    (errorMiddleware err).loggedStack = err.stack ∧
    (errorMiddleware err).response.status = 500 ∧
    (errorMiddleware err).response.body = "Something broke!" ∧
    (errorMiddleware err).exited = none :=
  ⟨rfl, rfl, rfl, rfl⟩

end MenStarter
